import Mathlib

/-!
Shallow embedding of the hybrid retrieval orchestration engine of
`RAG_BOT_Fin.py`: the query classifier (`SmartSearchDecider.analyze_query`),
the context combiner (`SmartSearchDecider.combine_contexts`), the
token-budgeted context assembler (`RAGRetriever.get_context`), the bounded
conversation memory (`ConversationalRealEstateSystem._add_to_memory`),
session snapshotting (`_auto_save`) and the per-turn orchestrator
(`ConversationalRealEstateSystem.chat`).

Python strings are Lean `String`s, Python floats are modelled as `ℚ`,
Python dict iteration order is the source's literal insertion order, and
Python exceptions raised by collaborators are modelled with `Except Unit`.
-/

set_option maxHeartbeats 1000000

namespace RagBot

/-! ### String containment (Python's `kw in s`) -/

/-- Python's substring test helper: does list `pat` occur at the head of `l`? -/
def startsWithL : List Char → List Char → Bool
  | [], _ => true
  | _ :: _, [] => false
  | a :: as, b :: bs => a == b && startsWithL as bs

/-- Does `pat` occur as a contiguous segment of `l`? -/
def hasSegL (pat : List Char) : List Char → Bool
  | [] => pat.isEmpty
  | c :: rest => startsWithL pat (c :: rest) || hasSegL pat rest

/-- Python's `pat in s` substring containment for strings. -/
def strContains (s pat : String) : Bool :=
  hasSegL pat.toList s.toList

/-- Python's `s.lower()` (ASCII lowercasing, which is all the keyword
tables need), written over the character list so that it reduces in the
kernel. -/
def pyLower (s : String) : String :=
  ⟨s.data.map Char.toLower⟩

/-! ### SmartSearchDecider keyword tables (source lines 26-49, in literal
dict insertion order) -/

/-- Topics that are stable and should primarily use RAG. -/
def stable_topics : List (String × List String) :=
  [ ("process", ["buying process", "selling process", "closing process", "mortgage process"])
  , ("definitions", ["what is", "explain", "define", "how does", "how do"])
  , ("historical", ["history", "established", "founded", "originally"])
  , ("features", ["amenities", "characteristics", "features", "lifestyle"])
  , ("geography", ["location", "boundaries", "distance", "area"]) ]

/-- Topics that always need current data. -/
def dynamic_topics : List (String × List String) :=
  [ ("market", ["price", "rates", "market", "trends", "inventory", "sales"])
  , ("temporal", ["current", "latest", "recent", "today", "now", "2024", "2025"])
  , ("statistics", ["average", "median", "statistics", "data", "numbers"])
  , ("availability", ["available", "for sale", "listings", "on market"])
  , ("news", ["news", "announced", "update", "happening", "events"]) ]

/-- The neighbourhood keyword list (`self.hybrid_topics['neighborhoods']`). -/
def neighborhoodKeywords : List String :=
  ["coral gables", "brickell", "wynwood", "aventura", "coconut grove", "south beach"]

/-- Topics that might need both sources. -/
def hybrid_topics : List (String × List String) :=
  [ ("neighborhoods", neighborhoodKeywords)
  , ("comparison", ["compare", "versus", "vs", "better", "difference"])
  , ("investment", ["roi", "invest", "rental", "return", "yield"])
  , ("comprehensive", ["tell me about", "overview", "guide", "everything"]) ]

/-! ### Retrieval hits -/

/-- A formatted retrieval hit as produced by `RAGRetriever.retrieve`:
`content`, the `source` entry of its metadata (absent keys modelled with
`none`), and the similarity `relevance_score`. -/
structure Hit where
  content : String
  source : Option String
  relevance_score : ℚ
deriving DecidableEq

/-- A probe collaborator handed to `analyze_query` as `rag_retriever`:
its `retrieve(query, k)` method. -/
def Probe : Type := String → Nat → List Hit

/-! ### SmartSearchDecider.analyze_query (source lines 51-142) -/

/-- The routing decision dictionary returned by `analyze_query`. -/
structure Decision where
  use_rag : Bool
  use_search : Bool
  rag_query : String
  search_query : String
  reasoning : String
deriving DecidableEq

/-- First category of `tbl` one of whose keywords occurs in `inp`
(the `for category, keywords in table.items()` loops break on the first
matching category). -/
def findMatch (tbl : List (String × List String)) (inp : String) : Option String :=
  match tbl with
  | [] => none
  | (cat, kws) :: rest =>
      if kws.any (fun k => strContains inp k) then some cat else findMatch rest inp

/-- Does any keyword of any category of `tbl` occur in `inp`? -/
def tableHasMatch (tbl : List (String × List String)) (inp : String) : Bool :=
  tbl.any (fun p => p.2.any (fun k => strContains inp k))

/-- The stable-topics loop (lines 76-82): first matching category sets
`use_rag` and appends to the reasoning; returns `(stable_match, decision)`. -/
def stableStep (input_lower : String) (d : Decision) : Bool × Decision :=
  match findMatch stable_topics input_lower with
  | some cat =>
      (true, { d with use_rag := true
                      reasoning := d.reasoning ++ "RAG: " ++ cat ++ " information is stable. " })
  | none => (false, d)

/-- The dynamic-topics loop (lines 85-97): first matching category sets
`use_search`, appends to the reasoning and possibly rewrites the search
query; returns `(dynamic_match, decision)`. -/
def dynamicStep (user_input input_lower : String) (d : Decision) : Bool × Decision :=
  match findMatch dynamic_topics input_lower with
  | some cat =>
      let d1 := { d with use_search := true
                         reasoning := d.reasoning ++ "Search: " ++ cat ++ " requires current data. " }
      let d2 :=
        if cat = "market" then { d1 with search_query := user_input ++ " 2024 real estate Miami" }
        else if cat = "availability" then { d1 with search_query := user_input ++ " MLS listings" }
        else d1
      (true, d2)
  | none => (false, d)

/-- The hybrid-topics loop (lines 100-123): only the first category with a
matching keyword is considered (the loop breaks even when its branch body
does not fire). -/
def hybridStep (stable_match dynamic_match : Bool) (input_lower : String) (d : Decision) : Decision :=
  match findMatch hybrid_topics input_lower with
  | some cat =>
      if cat = "neighborhoods" then
        if dynamic_match then
          { d with use_rag := true, use_search := true
                   reasoning := d.reasoning ++ "Both: Neighborhood details + current market. " }
        else d
      else if cat = "comparison" then
        let d1 := { d with use_rag := true }
        let d2 := if !stable_match then { d1 with use_search := true } else d1
        { d2 with reasoning := d2.reasoning ++ "Both: Static features + current differences. " }
      else if cat = "investment" then
        { d with use_rag := true, use_search := true
                 reasoning := d.reasoning ++ "Both: Investment strategies + current yields. " }
      else if cat = "comprehensive" then
        if neighborhoodKeywords.any (fun n => strContains input_lower n) then
          let d1 := { d with use_rag := true }
          let d2 := if dynamic_match then { d1 with use_search := true } else d1
          { d2 with reasoning := d2.reasoning ++ "Comprehensive neighborhood information requested. " }
        else d
      else d
  | none => d

/-- The keyword-table portion of `analyze_query` (lines 64-123); returns
`(stable_match, dynamic_match, decision)`. -/
def tableStep (user_input : String) : Bool × Bool × Decision :=
  let input_lower := pyLower user_input
  let d0 : Decision := ⟨false, false, user_input, user_input, ""⟩
  let sm := stableStep input_lower d0
  let dm := dynamicStep user_input input_lower sm.2
  let d3 := hybridStep sm.1 dm.1 input_lower dm.2
  (sm.1, dm.1, d3)

/-- The reasoning string assigned by the default fallback (lines 128-140):
with a probe whose top hit at depth 1 has relevance above 0.7 the
high-relevance message, otherwise (lower relevance, no hit, or no probe)
the corresponding default message. -/
def defaultReasoning (user_input : String) (rag_retriever : Option Probe) : String :=
  match rag_retriever with
  | some retr =>
      match retr user_input 1 with
      | r :: _ =>
          if r.relevance_score > 7/10 then "RAG: High relevance content found. "
          else "Default: Checking knowledge base first. "
      | [] => "Default: Checking knowledge base first. "
  | none => "Default: General query, checking knowledge base. "

/-- The default fallback of `analyze_query` (lines 126-141): when no flag
is set, every branch enables the knowledge base only (the reasoning is the
only probe-dependent part). -/
def defaultStep (user_input : String) (rag_retriever : Option Probe) (d : Decision) : Decision :=
  if !d.use_rag && !d.use_search then
    { d with use_rag := true, reasoning := defaultReasoning user_input rag_retriever }
  else d

/-- `SmartSearchDecider.analyze_query` (source lines 51-142). -/
def analyze_query (user_input : String) (rag_retriever : Option Probe) : Decision :=
  defaultStep user_input rag_retriever (tableStep user_input).2.2

/-! ### SmartSearchDecider.combine_contexts (source lines 144-186) -/

/-- `SmartSearchDecider.combine_contexts` (Python string truthiness is
emptiness, so `not search_context` is `search_context = ""`). -/
def combine_contexts (rag_context search_context query_type : String) : String :=
  if search_context = "" ∧ rag_context = "" then
    "No relevant information found."
  else if search_context = "" then
    "Based on knowledge base:\n" ++ rag_context
  else if rag_context = "" then
    "Current information:\n" ++ search_context
  else if strContains query_type "market" || strContains query_type "price" then
    "Market Analysis:\n\nHistorical Context and Fundamentals:\n" ++ rag_context
      ++ "\n\nCurrent Market Conditions:\n" ++ search_context
  else if strContains query_type "neighborhood" then
    "Comprehensive Information:\n\nNeighborhood Characteristics and Features:\n" ++ rag_context
      ++ "\n\nRecent Updates and Current Market:\n" ++ search_context
  else
    "Comprehensive Information:\n\nFrom Knowledge Base:\n" ++ rag_context
      ++ "\n\nCurrent Information:\n" ++ search_context

/-! ### RAGRetriever.get_context (source lines 706-729) -/

/-- `len(content) // 4`, the approximate token count heuristic. -/
def approxTokens (s : String) : Nat := s.length / 4

/-- `f"[From {source}]\n{content}"` with `metadata.get('source', 'Unknown')`. -/
def formatHit (h : Hit) : String :=
  "[From " ++ h.source.getD "Unknown" ++ "]\n" ++ h.content

/-- The greedy accumulation loop of `get_context` (lines 716-727): running
token count `tc`, budget `maxT`; the first overflowing hit stops the loop. -/
def contextLoop : List Hit → Nat → Nat → List String
  | [], _, _ => []
  | r :: rest, tc, maxT =>
      let ct := approxTokens r.content
      if tc + ct > maxT then []
      else formatHit r :: contextLoop rest (tc + ct) maxT

/-- `RAGRetriever.get_context` applied to the hit sequence returned by
`self.retrieve(query)` (empty result list short-circuits to `""`). -/
def get_context_hits (results : List Hit) (max_tokens : Nat) : String :=
  if results = [] then ""
  else String.intercalate "\n\n---\n\n" (contextLoop results 0 max_tokens)

/-- Total content-token count of a hit list. -/
def tokenSum (l : List Hit) : Nat :=
  (l.map (fun h => approxTokens h.content)).sum

/-! ## Helper lemmas about the classifier -/

theorem findMatch_of_tableHasMatch (tbl : List (String × List String)) (inp : String)
    (h : tableHasMatch tbl inp = true) : ∃ c, findMatch tbl inp = some c := by
  induction tbl with
  | nil => simp [tableHasMatch] at h
  | cons p rest ih =>
      obtain ⟨cat, kws⟩ := p
      rw [tableHasMatch, List.any_cons] at h
      by_cases hp : kws.any (fun k => strContains inp k) = true
      · exact ⟨cat, by rw [findMatch, if_pos hp]⟩
      · simp only [hp] at h
        simp only [Bool.false_or] at h
        obtain ⟨c, hc⟩ := ih h
        exact ⟨c, by rw [findMatch, if_neg hp]; exact hc⟩

theorem findMatch_eq_none (tbl : List (String × List String)) (inp : String)
    (h : tableHasMatch tbl inp = false) : findMatch tbl inp = none := by
  induction tbl with
  | nil => rfl
  | cons p rest ih =>
      obtain ⟨cat, kws⟩ := p
      rw [tableHasMatch, List.any_cons] at h
      rw [Bool.or_eq_false_iff] at h
      rw [findMatch, if_neg (by simp [h.1]), ih h.2]

theorem defaultStep_flags (u : String) (probe : Option Probe) (d : Decision)
    (h1 : d.use_rag = false) (h2 : d.use_search = false) :
    (defaultStep u probe d).use_rag = true ∧ (defaultStep u probe d).use_search = false := by
  simp [defaultStep, h1, h2]

theorem defaultStep_skip (u : String) (probe : Option Probe) (d : Decision)
    (h : d.use_rag = true ∨ d.use_search = true) : defaultStep u probe d = d := by
  rcases h with h | h <;> simp [defaultStep, h]

theorem hybridStep_stable_flags (inp : String) (d : Decision)
    (hne : findMatch hybrid_topics inp ≠ some "investment")
    (h1 : d.use_rag = true) (h2 : d.use_search = false) :
    (hybridStep true false inp d).use_rag = true
      ∧ (hybridStep true false inp d).use_search = false := by
  cases hfm : findMatch hybrid_topics inp with
  | none => simp only [hybridStep, hfm]; exact ⟨h1, h2⟩
  | some cat =>
      simp only [hybridStep, hfm]
      by_cases hn : cat = "neighborhoods"
      · rw [if_pos hn, if_neg Bool.false_ne_true]
        exact ⟨h1, h2⟩
      · rw [if_neg hn]
        by_cases hcmp : cat = "comparison"
        · rw [if_pos hcmp, if_neg (by decide : ¬ ((!true) = true))]
          exact ⟨rfl, h2⟩
        · rw [if_neg hcmp]
          by_cases hinv : cat = "investment"
          · exact absurd (hinv ▸ hfm) hne
          · rw [if_neg hinv]
            by_cases hcomp : cat = "comprehensive"
            · rw [if_pos hcomp]
              by_cases hany : neighborhoodKeywords.any (fun n => strContains inp n) = true
              · rw [if_pos hany, if_neg Bool.false_ne_true]
                exact ⟨rfl, h2⟩
              · rw [if_neg hany]; exact ⟨h1, h2⟩
            · rw [if_neg hcomp]; exact ⟨h1, h2⟩

/-- After a stable hit (and no dynamic hit), the hybrid and default steps
keep the decision knowledge-base-only provided the first hybrid match is
not the investment category. -/
theorem stable_tail_flags (u : String) (probe : Option Probe) (inp : String) (d : Decision)
    (hne : findMatch hybrid_topics inp ≠ some "investment")
    (h1 : d.use_rag = true) (h2 : d.use_search = false) :
    (defaultStep u probe (hybridStep true false inp d)).use_rag = true
      ∧ (defaultStep u probe (hybridStep true false inp d)).use_search = false := by
  have h := hybridStep_stable_flags inp d hne h1 h2
  rw [defaultStep_skip u probe _ (Or.inl h.1)]
  exact h

/-! ## Claim theorems: the query classifier -/

/-- C1 counterexample: the query "explain roi" contains the stable-topic
keyword "explain" (definitions) and no dynamic-topic keyword, yet
`analyze_query` returns `use_search = true` (the hybrid investment rule
fires on "roi"), refuting the claim. -/
theorem c1_cex :
    tableHasMatch stable_topics (pyLower "explain roi") = true
      ∧ tableHasMatch dynamic_topics (pyLower "explain roi") = false
      ∧ (analyze_query "explain roi" none).use_search = true :=
  ⟨by decide, by decide, by decide⟩

/-- C1 (amended): for every query whose lowercased form contains a
stable-topic keyword, no dynamic-topic keyword, and whose first matching
hybrid category (if any) is not the investment category, `analyze_query`
returns `use_rag = true` and `use_search = false`, for every probe. -/
theorem c1_stable_no_dynamic_routes_rag_only (input : String) (probe : Option Probe)
    (hs : tableHasMatch stable_topics (pyLower input) = true)
    (hd : tableHasMatch dynamic_topics (pyLower input) = false)
    (hh : findMatch hybrid_topics (pyLower input) ≠ some "investment") :
    (analyze_query input probe).use_rag = true
      ∧ (analyze_query input probe).use_search = false := by
  obtain ⟨c, hc⟩ := findMatch_of_tableHasMatch _ _ hs
  have hdn := findMatch_eq_none _ _ hd
  simp only [analyze_query, tableStep, stableStep, dynamicStep, hc, hdn]
  exact stable_tail_flags input probe (pyLower input) _ hh rfl rfl

/-- C1 witness: the query "what is a condo" satisfies the amended
hypotheses and is routed to the knowledge base only. -/
theorem c1_witness :
    (analyze_query "what is a condo" none).use_rag = true
      ∧ (analyze_query "what is a condo" none).use_search = false :=
  c1_stable_no_dynamic_routes_rag_only "what is a condo" none
    (by decide) (by decide) (by decide)

/-- C2 counterexample: on "Compare Brickell vs Aventura for investment"
the first matching hybrid category is `neighborhoods` (keyword
"brickell"); without a dynamic hit its rule is a no-op and the loop breaks
before the comparison and investment rules, so `use_search = false`,
refuting the claim that both flags are set. -/
theorem c2_cex :
    (analyze_query "Compare Brickell vs Aventura for investment" none).use_rag = true
      ∧ (analyze_query "Compare Brickell vs Aventura for investment" none).use_search = false :=
  ⟨by decide, by decide⟩

/-- C2 (amended): for the input "Compare Brickell vs Aventura for
investment" and every probe, `analyze_query` returns `use_rag = true` and
`use_search = false`: the neighbourhood keyword "brickell" is the first
hybrid match, its branch requires a dynamic hit to fire, the loop breaks
before the comparison/investment rules, and the default rule then enables
the knowledge base only. -/
theorem c2_compare_brickell_aventura (probe : Option Probe) :
    (analyze_query "Compare Brickell vs Aventura for investment" probe).use_rag = true
      ∧ (analyze_query "Compare Brickell vs Aventura for investment" probe).use_search = false := by
  unfold analyze_query
  exact defaultStep_flags _ probe _ (by decide) (by decide)

/-- C8: a query matching no keyword of any of the three tables is routed
to the knowledge base only, for every probe (both probe branches, and the
no-probe branch, set `use_rag` only). -/
theorem c8_no_keyword_default_rag_only (input : String) (probe : Option Probe)
    (h1 : tableHasMatch stable_topics (pyLower input) = false)
    (h2 : tableHasMatch dynamic_topics (pyLower input) = false)
    (h3 : tableHasMatch hybrid_topics (pyLower input) = false) :
    (analyze_query input probe).use_rag = true
      ∧ (analyze_query input probe).use_search = false := by
  have hs := findMatch_eq_none _ _ h1
  have hd := findMatch_eq_none _ _ h2
  have hh := findMatch_eq_none _ _ h3
  simp only [analyze_query, tableStep, stableStep, dynamicStep, hybridStep, hs, hd, hh]
  exact defaultStep_flags input probe _ rfl rfl

/-- C8 witness: "hello there" matches no keyword; with a probe whose top
hit has relevance 9/10 (above the 0.7 threshold) the decision is still
knowledge-base only. -/
theorem c8_witness :
    (analyze_query "hello there" (some (fun _ _ => [⟨"", none, 9/10⟩]))).use_rag = true
      ∧ (analyze_query "hello there" (some (fun _ _ => [⟨"", none, 9/10⟩]))).use_search = false :=
  c8_no_keyword_default_rag_only "hello there" _ (by decide) (by decide) (by decide)

/-- C10: for every input and every probe, the decision returned by
`analyze_query` consults at least one source. -/
theorem c10_at_least_one_source (input : String) (probe : Option Probe) :
    (analyze_query input probe).use_rag = true
      ∨ (analyze_query input probe).use_search = true := by
  unfold analyze_query
  cases h1 : (tableStep input).2.2.use_rag with
  | false =>
      cases h2 : (tableStep input).2.2.use_search with
      | false => exact Or.inl (defaultStep_flags input probe _ h1 h2).1
      | true => exact Or.inr (by rw [defaultStep_skip input probe _ (Or.inr h2)]; exact h2)
  | true => exact Or.inl (by rw [defaultStep_skip input probe _ (Or.inl h1)]; exact h1)

/-! ## Claim theorems: the context assembler (C3) -/

@[simp] theorem tokenSum_nil : tokenSum [] = 0 := rfl

@[simp] theorem tokenSum_cons (h : Hit) (t : List Hit) :
    tokenSum (h :: t) = approxTokens h.content + tokenSum t := by
  simp [tokenSum]

/-- Invariant of the greedy accumulation loop: it emits the formatted
texts of a prefix of the hits whose content-token total fits the budget. -/
theorem contextLoop_spec (hits : List Hit) (tc maxT : Nat) (h : tc ≤ maxT) :
    ∃ n, contextLoop hits tc maxT = (hits.take n).map formatHit
      ∧ tc + tokenSum (hits.take n) ≤ maxT := by
  induction hits generalizing tc with
  | nil =>
      refine ⟨0, by simp [contextLoop], ?_⟩
      simpa using h
  | cons r rest ih =>
      by_cases ho : tc + approxTokens r.content > maxT
      · refine ⟨0, by simp [contextLoop, ho], ?_⟩
        simpa using h
      · push_neg at ho
        obtain ⟨m, hm1, hm2⟩ := ih (tc + approxTokens r.content) ho
        refine ⟨m + 1, ?_, ?_⟩
        · simp [contextLoop, Nat.not_lt.mpr ho, hm1]
        · simp only [List.take_succ_cons, tokenSum_cons]
          omega

/-- C3 counterexample: with budget 0 and a single hit of empty content,
`get_context` returns the nonempty string made of the source tag
`[From s]` and a newline, whose approximate token count 2 exceeds the
budget 0 — the length/4 of the RETURNED string is not bounded by the
budget, refuting the claim. -/
theorem c3_cex :
    ¬ (approxTokens (get_context_hits [⟨"", some "s", 0⟩] 0) ≤ 0) := by decide

/-- C3 (amended): the budget bounds the total CONTENT token count of the
included hits (the `[From ...]` tags and the separators are not counted):
the result is the separator-join of the fully formatted texts of a prefix
of the hits whose content-token total is at most the budget, and when the
first hit alone exceeds the budget the result is the empty string. -/
theorem c3_budget_bounds_included_content (hits : List Hit) (budget : Nat) :
    (∃ n, get_context_hits hits budget
        = String.intercalate "\n\n---\n\n" ((hits.take n).map formatHit)
      ∧ tokenSum (hits.take n) ≤ budget)
    ∧ (∀ h rest, hits = h :: rest → budget < approxTokens h.content →
        get_context_hits hits budget = "") := by
  constructor
  · cases hits with
    | nil => exact ⟨0, rfl, by simp⟩
    | cons r rest =>
        obtain ⟨n, h1, h2⟩ := contextLoop_spec (r :: rest) 0 budget (Nat.zero_le _)
        refine ⟨n, ?_, by simpa using h2⟩
        simp only [get_context_hits, if_neg (List.cons_ne_nil r rest), h1]
  · rintro h rest rfl hb
    simp only [get_context_hits, if_neg (List.cons_ne_nil h rest)]
    have : contextLoop (h :: rest) 0 budget = [] := by
      simp [contextLoop, hb]
    rw [this]
    rfl

/-- C3 witness: a first hit of 4 characters (1 token) against budget 0 is
dropped entirely, degrading to the empty string. -/
theorem c3_witness : get_context_hits [⟨"aaaa", none, 0⟩] 0 = "" :=
  (c3_budget_bounds_included_content [⟨"aaaa", none, 0⟩] 0).2
    ⟨"aaaa", none, 0⟩ [] rfl (by decide)

/-! ## Conversation memory (C4) -/

/-- One conversation exchange, as appended by `_add_to_memory`. -/
structure Exchange where
  user : String
  agent : String
  timestamp : ℚ
  sources : String
deriving DecidableEq

/-- `ConversationalRealEstateSystem._add_to_memory`'s list mutation
(source lines 844-855): append, then keep the last 20 when the length
exceeds 20 (`self.conversation_memory[-20:]`). -/
def addToMemory (mem : List Exchange) (e : Exchange) : List Exchange :=
  let m := mem ++ [e]
  if 20 < m.length then m.drop (m.length - 20) else m

theorem addToMemory_eq (es : List Exchange) (e : Exchange) :
    addToMemory (es.drop (es.length - 20)) e
      = (es ++ [e]).drop ((es ++ [e]).length - 20) := by
  by_cases h : es.length < 20
  · have h0 : es.length - 20 = 0 := by omega
    have h1 : es.length + 1 - 20 = 0 := by omega
    have hlen : ¬ (20 < (es ++ [e]).length) := by
      simp only [List.length_append, List.length_singleton]
      omega
    simp [addToMemory, h0, h1, hlen]
  · push_neg at h
    have hd : (es.drop (es.length - 20)).length = 20 := by
      rw [List.length_drop]; omega
    have hlen : 20 < (es.drop (es.length - 20) ++ [e]).length := by
      simp [hd]
    have harith : (es.drop (es.length - 20) ++ [e]).length
        - 20 = 1 := by
      simp only [List.length_append, hd, List.length_singleton]
    simp only [addToMemory, if_pos hlen, harith]
    rw [List.drop_append_of_le_length (by omega : 1 ≤ (es.drop (es.length - 20)).length)]
    rw [List.drop_drop]
    rw [List.length_append, List.length_singleton]
    rw [List.drop_append_of_le_length (by omega : es.length + 1 - 20 ≤ es.length)]
    congr 2
    omega

/-- Folding `_add_to_memory` from an empty memory always leaves exactly
the most recent 20 exchanges (all of them while there are at most 20). -/
theorem foldl_addToMemory (es : List Exchange) :
    List.foldl addToMemory [] es = es.drop (es.length - 20) := by
  induction es using List.reverseRecOn with
  | nil => rfl
  | append_singleton es e ih =>
      rw [List.foldl_append, List.foldl_cons, List.foldl_nil, ih, addToMemory_eq]

/-- C4: from an empty memory, 25 appends leave exactly the most recent 20
exchanges in their original order, and after every append the length is
at most 20 with the oldest entries evicted first (the memory is always
the suffix of the appended exchanges past the first `length - 20`). -/
theorem c4_memory_bounded_fifo (es : List Exchange) (h : es.length = 25) :
    List.foldl addToMemory [] es = es.drop 5
      ∧ ∀ k, (List.foldl addToMemory [] (es.take k)).length ≤ 20
          ∧ List.foldl addToMemory [] (es.take k)
              = (es.take k).drop ((es.take k).length - 20) := by
  refine ⟨?_, fun k => ⟨?_, foldl_addToMemory _⟩⟩
  · rw [foldl_addToMemory, h]
  · rw [foldl_addToMemory, List.length_drop]
    omega

/-- C4 witness: a concrete run of 25 appends. -/
def sampleExchanges : List Exchange :=
  (List.range 25).map (fun i => ⟨"u", "a", (i : ℚ), ""⟩)

theorem c4_witness :
    List.foldl addToMemory [] sampleExchanges = sampleExchanges.drop 5
      ∧ (List.foldl addToMemory [] (sampleExchanges.take 21)).length ≤ 20 := by
  have h := c4_memory_bounded_fifo sampleExchanges rfl
  exact ⟨h.1, (h.2 21).1⟩

/-! ## Claim theorems: the context combiner (C5) -/

/-- The knowledge-base framing headers appearing in `combine_contexts`. -/
def kbHeaders : List String :=
  [ "Based on knowledge base:", "Historical Context and Fundamentals:"
  , "Neighborhood Characteristics and Features:", "From Knowledge Base:" ]

/-- The web-data framing headers appearing in `combine_contexts`. -/
def webHeaders : List String :=
  [ "Current Market Conditions:", "Recent Updates and Current Market:"
  , "Current Information:", "Current information:" ]

/-- C5: for every topic hint, two empty inputs give the fixed sentinel;
a knowledge-base-only input is framed without any web-data header and
contains the input; a web-only input is framed without any knowledge-base
header and contains the input. -/
theorem c5_combine_degenerate (x : String) :
    combine_contexts "" "" x = "No relevant information found."
      ∧ strContains (combine_contexts "A" "" x) "A" = true
      ∧ webHeaders.all (fun h => !(strContains (combine_contexts "A" "" x) h)) = true
      ∧ strContains (combine_contexts "" "B" x) "B" = true
      ∧ kbHeaders.all (fun h => !(strContains (combine_contexts "" "B" x) h)) = true := by
  have hA : combine_contexts "A" "" x = "Based on knowledge base:\nA" := rfl
  have hB : combine_contexts "" "B" x = "Current information:\nB" := rfl
  refine ⟨rfl, ?_, ?_, ?_, ?_⟩
  · rw [hA]; decide
  · rw [hA]; decide
  · rw [hB]; decide
  · rw [hB]; decide

/-! ### JSON values (session snapshots are JSON-serializable data) -/

/-- In-memory JSON values: what `json.dump` serializes and `json.load`
parses back. -/
inductive Json where
  | null
  | bool (b : Bool)
  | num (q : ℚ)
  | str (s : String)
  | arr (elems : List Json)
  | obj (fields : List (String × Json))

/-- Python truthiness of a JSON value. -/
def jsonTruthy : Json → Bool
  | .null => false
  | .bool b => b
  | .num q => if q = 0 then false else true
  | .str s => if s = "" then false else true
  | .arr xs => !xs.isEmpty
  | .obj fs => !fs.isEmpty

/-- Python dict lookup (`d.get(key)`) on a JSON object's field list. -/
def lookupField : List (String × Json) → String → Option Json
  | [], _ => none
  | (k, v) :: rest, key => if k = key then some v else lookupField rest key

mutual

/-- `json.dumps` (string escaping elided; used only opaquely inside the
language-model prompt). -/
def dumpJson : Json → String
  | .null => "null"
  | .bool true => "true"
  | .bool false => "false"
  | .num q => toString q
  | .str s => "\"" ++ s ++ "\""
  | .arr xs => "[" ++ dumpJsonList xs ++ "]"
  | .obj fs => "\x7b" ++ dumpJsonFields fs ++ "\x7d"

def dumpJsonList : List Json → String
  | [] => ""
  | [j] => dumpJson j
  | j :: js => dumpJson j ++ ", " ++ dumpJsonList js

def dumpJsonFields : List (String × Json) → String
  | [] => ""
  | [(k, v)] => "\"" ++ k ++ "\": " ++ dumpJson v
  | (k, v) :: fs => "\"" ++ k ++ "\": " ++ dumpJson v ++ ", " ++ dumpJsonFields fs

end

/-! ### Session snapshotting (`_auto_save`, source lines 804-816) -/

/-- The JSON encoding of one exchange dictionary. -/
def encodeExchange (e : Exchange) : Json :=
  .obj [("user", .str e.user), ("agent", .str e.agent),
        ("timestamp", .num e.timestamp), ("sources", .str e.sources)]

/-- The `save_data` object written by `_auto_save`. -/
def saveData (mem : List Exchange) (ctx : List (String × Json)) (t : ℚ) : Json :=
  .obj [("conversation_memory", .arr (mem.map encodeExchange)),
        ("json_context", .obj ctx),
        ("timestamp", .num t)]

/-- The orchestrator's mutable state: the conversation memory, the
free-form context map, and the contents of the session file after the
last snapshot write (`none` before the first write). -/
structure ChatState where
  conversation_memory : List Exchange
  json_context : List (String × Json)
  savedFile : Option Json

/-- `_auto_save`: overwrite the session file with the current snapshot. -/
def auto_save (st : ChatState) (now : ℚ) : ChatState :=
  { st with savedFile := some (saveData st.conversation_memory st.json_context now) }

/-! ### Collaborators of the orchestrator -/

/-- A raw vector-store hit of `similarity_search_with_score`: page
content, the `source` metadata entry, and a distance score. -/
structure RawHit where
  content : String
  source : Option String
  score : ℚ

/-- One entry of the `organic` list of a Serper search response
(`result.get('title', '')` treats missing keys as `""`). -/
structure OrgEntry where
  title : Option String
  snippet : Option String

/-- A Serper response dictionary: possibly an `error` field (the
`RequestException` branch of `SerperSearchTool.search`), possibly an
`organic` ranked list. -/
structure SearchR where
  error : Option String
  organic : Option (List OrgEntry)

/-- The three external collaborators of a conversational turn; each call
may raise (modelled as `Except.error ()`). -/
structure Collabs where
  vecSearch : String → Nat → Except Unit (List RawHit)
  webSearch : String → Except Unit SearchR
  lmGen : String → Except Unit String

/-- `RAGRetriever.retrieve` (source lines 685-704): formats hits with
`relevance_score = 1 / (1 + score)`; any retrieval exception is caught
and degrades to the empty list. -/
def retrieveFn (c : Collabs) (q : String) (k : Nat) : List Hit :=
  match c.vecSearch q k with
  | .ok rs => rs.map (fun r => ⟨r.content, r.source, 1 / (1 + r.score)⟩)
  | .error _ => []

/-- `RAGRetriever.get_context` (source lines 706-729) on a live retriever
(`self.retrieve(query)` with the default `k = 5`). -/
def get_context (c : Collabs) (q : String) (max_tokens : Nat) : String :=
  get_context_hits (retrieveFn c q 5) max_tokens

/-- `_format_search_results` (source lines 824-835). -/
def format_search_results (r : SearchR) : String :=
  if r.error.isSome then ""
  else
    match r.organic with
    | some org =>
        let formatted := (org.take 3).map (fun e => e.title.getD "" ++ ": " ++ e.snippet.getD "")
        if formatted = [] then "" else String.intercalate "\n" formatted
    | none => ""

/-- The search-query location augmentation in `chat` (source lines
891-894): append the context's location unless already a substring; a
truthy non-string location makes Python's `in` raise `TypeError`. -/
def augmentQuery (ctx : List (String × Json)) (sq : String) : Except Unit String :=
  match lookupField ctx "location" with
  | some j =>
      if jsonTruthy j then
        match j with
        | .str s => if strContains sq s then .ok sq else .ok (sq ++ " " ++ s)
        | _ => .error ()
      else .ok sq
  | none => .ok sq

/-! ### The orchestrator (`chat`, source lines 861-946) -/

/-- The whitespace characters removed by Python's `str.strip()`. -/
def isSpaceChar (ch : Char) : Bool :=
  ch == ' ' || ch == '\t' || ch == '\n' || ch == '\r' || ch == '\x0b' || ch == '\x0c'

/-- Python's `s.strip()` (ASCII whitespace), written over the character
list so that it reduces in the kernel. -/
def pyStrip (s : String) : String :=
  ⟨(((s.data.dropWhile isSpaceChar).reverse.dropWhile isSpaceChar).reverse)⟩

/-- The fixed system prompt of the agent. -/
def system_prompt : String :=
  "You are Agent Mira, an expert real estate AI assistant with deep knowledge of South Florida real estate.\n\nUse the provided knowledge base context to give accurate, specific answers. Be confident and natural in your responses.\nDon't mention checking documents or searching - present information as your own expertise.\nFocus on being helpful, professional, and conversational."

/-- The recent-conversation block (last 2 exchanges, agent text truncated
to 200 characters; source lines 909-913). -/
def recentConvo (mem : List Exchange) : String :=
  String.join ((mem.drop (mem.length - 2)).map
    (fun ex => "\nUser: " ++ ex.user ++ "\nAssistant: " ++ ex.agent.take 200 ++ "..."))

/-- The full generation prompt (source lines 916-934). -/
def buildPrompt (st : ChatState) (sources_used : List String) (combined : String)
    (user_input : String) : String :=
  system_prompt
    ++ "\n\nInformation Sources Used: "
    ++ (if sources_used = [] then "General Knowledge" else String.intercalate ", " sources_used)
    ++ "\n\n" ++ combined
    ++ "\n\nRecent Conversation:\n"
    ++ (if recentConvo st.conversation_memory = "" then "This is the start of our conversation."
        else recentConvo st.conversation_memory)
    ++ "\n\nCurrent Context: "
    ++ (if st.json_context.isEmpty then "General inquiry" else dumpJson (.obj st.json_context))
    ++ "\n\nUser Question: " ++ user_input
    ++ "\n\nInstructions:\n- Provide a comprehensive, natural response using all available information\n- Be specific with numbers, prices, and data when available\n- If information comes from different time periods, blend them naturally\n- Maintain a helpful, professional tone\n- Don't mention sources explicitly unless asked"

/-- The routing decision of a turn: `analyze_query` probed with the live
retriever (source line 875). -/
def chatDecision (c : Collabs) (user_input : String) : Decision :=
  analyze_query user_input (some (fun q k => retrieveFn c q k))

/-- The knowledge-base context of a turn (source lines 885-888). -/
def ragContext (c : Collabs) (user_input : String) : String :=
  if (chatDecision c user_input).use_rag then
    get_context c (chatDecision c user_input).rag_query 2000
  else ""

/-- The web-search phase of a turn (source lines 890-899): when
`use_search` is set, augment the query with the location context and call
the search collaborator; contributes the formatted snippets and the
source label. -/
def searchStep (c : Collabs) (ctx : List (String × Json)) (d : Decision) :
    Except Unit (String × List String) :=
  if d.use_search then
    match augmentQuery ctx d.search_query with
    | .error e => .error e
    | .ok sq =>
        match c.webSearch sq with
        | .error e => .error e
        | .ok sr =>
            let sc := format_search_results sr
            .ok (sc, if sc = "" then [] else ["Current Web Data"])
  else .ok ("", [])

/-- The contributing source labels of a turn (source lines 887-899). -/
def chatSources (c : Collabs) (user_input : String) (searchLabels : List String) : List String :=
  (if (chatDecision c user_input).use_rag then
     (if ragContext c user_input = "" then [] else ["Knowledge Base"])
   else [])
    ++ searchLabels

/-- The generation and recording phase of a turn (source lines 901-942):
combine the contexts, build the prompt, call the language model, append
the exchange; `scs` is the web-search phase's contribution. -/
def generateStep (c : Collabs) (st : ChatState) (now : ℚ) (user_input : String)
    (scs : String × List String) : Except Unit (String × ChatState) :=
  match c.lmGen (buildPrompt st (chatSources c user_input scs.2)
      (combine_contexts (ragContext c user_input) scs.1 (pyLower user_input))
      user_input) with
  | .error e => .error e
  | .ok response =>
      .ok (response,
        { st with conversation_memory := addToMemory st.conversation_memory ⟨user_input, response, now, String.intercalate ", " (chatSources c user_input scs.2)⟩ })

/-- The body of `chat`'s `try` block (source lines 873-942): route,
retrieve, combine, generate, record; any collaborator exception
propagates out as `Except.error`. -/
def chatBody (c : Collabs) (st : ChatState) (now : ℚ) (user_input : String) :
    Except Unit (String × ChatState) :=
  match searchStep c st.json_context (chatDecision c user_input) with
  | .error e => .error e
  | .ok scs => generateStep c st now user_input scs

/-- The exit keywords of `chat` (source line 869). -/
def exitWords : List String := ["exit", "quit", "bye", "goodbye"]

/-- The fixed reply to empty input. -/
def emptyInputReply : String :=
  "I'm here to help! What would you like to know about real estate?"

/-- The fixed farewell reply to an exit keyword. -/
def farewellReply : String :=
  "Thanks for chatting! Feel free to reach out anytime for real estate help. Have a great day!"

/-- The fixed apologetic reply of the `except` handler. -/
def apologyReply : String :=
  "I apologize for the technical issue. Let me try to help you with that question again."

/-- `ConversationalRealEstateSystem.chat` (source lines 861-946): strip,
short-circuit on empty input and exit keywords, then run the turn body
with every exception recovered into the fixed apologetic reply. -/
def chat (c : Collabs) (st : ChatState) (now : ℚ) (raw_input : String) : String × ChatState :=
  if pyStrip raw_input = "" then (emptyInputReply, st)
  else if exitWords.contains (pyLower (pyStrip raw_input)) then
    (farewellReply, auto_save st now)
  else
    match chatBody c st now (pyStrip raw_input) with
    | .ok r => r
    | .error _ => (apologyReply, st)

/-! ## Claim theorems: the orchestrator (C6, C7) -/

/-- A successful generation phase's reply is a successful output of the
language-model collaborator. -/
theorem generateStep_reply_from_lm (c : Collabs) (st : ChatState) (now : ℚ) (u : String)
    (scs : String × List String) (r : String × ChatState)
    (h : generateStep c st now u scs = .ok r) :
    ∃ p, c.lmGen p = .ok r.1 := by
  unfold generateStep at h
  cases hg : c.lmGen (buildPrompt st (chatSources c u scs.2)
      (combine_contexts (ragContext c u) scs.1 (pyLower u)) u) with
  | error e => rw [hg] at h; exact absurd h (by simp)
  | ok response =>
      rw [hg] at h
      simp only [Except.ok.injEq] at h
      have hr : r.1 = response := by rw [← h]
      exact ⟨_, by rw [hr]; exact hg⟩

/-- A successful turn body's reply is a successful output of the
language-model collaborator. -/
theorem chatBody_reply_from_lm (c : Collabs) (st : ChatState) (now : ℚ) (u : String)
    (r : String × ChatState) (h : chatBody c st now u = .ok r) :
    ∃ p, c.lmGen p = .ok r.1 := by
  unfold chatBody at h
  cases hs : searchStep c st.json_context (chatDecision c u) with
  | error e => rw [hs] at h; exact Except.noConfusion h
  | ok scs =>
      rw [hs] at h
      exact generateStep_reply_from_lm c st now u scs r h

/-- C6: for every input and every behaviour of the retriever, web-search
and language-model collaborators (including raising), `chat` returns one
of the fixed natural-language replies or a successful language-model
output — never a raw error — and when the language model always fails on
a normal turn, the reply is the fixed apologetic one. -/
theorem c6_no_exception_escapes (c : Collabs) (st : ChatState) (now : ℚ) (input : String) :
    ((chat c st now input).1 = emptyInputReply
      ∨ (chat c st now input).1 = farewellReply
      ∨ (chat c st now input).1 = apologyReply
      ∨ ∃ p r, c.lmGen p = .ok r ∧ (chat c st now input).1 = r)
    ∧ ((∀ p, c.lmGen p = .error ()) → pyStrip input ≠ "" →
        exitWords.contains (pyLower (pyStrip input)) = false →
        (chat c st now input).1 = apologyReply) := by
  constructor
  · by_cases he : pyStrip input = ""
    · left; rw [chat, if_pos he]
    · by_cases hx : exitWords.contains (pyLower (pyStrip input)) = true
      · right; left; rw [chat, if_neg he, if_pos hx]
      · cases hb : chatBody c st now (pyStrip input) with
        | error e =>
            right; right; left
            rw [chat, if_neg he, if_neg hx, hb]
        | ok r =>
            right; right; right
            obtain ⟨p, hp⟩ := chatBody_reply_from_lm c st now (pyStrip input) r hb
            exact ⟨p, r.1, hp, by rw [chat, if_neg he, if_neg hx, hb]⟩
  · intro hlm hne hx
    have hx2 : ¬ (exitWords.contains (pyLower (pyStrip input)) = true) := by
      intro hcontra
      rw [hx] at hcontra
      exact Bool.false_ne_true hcontra
    cases hb : chatBody c st now (pyStrip input) with
    | error e => rw [chat, if_neg hne, if_neg hx2, hb]
    | ok r =>
        obtain ⟨p, hp⟩ := chatBody_reply_from_lm c st now (pyStrip input) r hb
        rw [hlm p] at hp
        exact absurd hp (by simp)

/-- A collaborator whose every call raises. -/
def cNoop : Collabs :=
  ⟨fun _ _ => .error (), fun _ => .error (), fun _ => .error ()⟩

/-- A fresh session state. -/
def stSample : ChatState := ⟨[], [], none⟩

/-- C6 witness: with a language model that always fails, a normal turn
returns the fixed apologetic reply. -/
theorem c6_witness : (chat cNoop stSample 0 "hello").1 = apologyReply :=
  (c6_no_exception_escapes cNoop stSample 0 "hello").2
    (fun _ => rfl) (by decide) (by decide)

/-- C7: on an exit-keyword input (after strip/lowercase), `chat` returns
the fixed farewell reply, writes the snapshot, leaves the conversation
memory untouched, and depends on no collaborator (so makes no retriever,
web-search or language-model call). -/
theorem c7_exit_shortcircuits (c cAlt : Collabs) (st : ChatState) (now : ℚ) (input : String)
    (h : exitWords.contains (pyLower (pyStrip input)) = true) :
    chat c st now input = (farewellReply, auto_save st now)
      ∧ chat c st now input = chat cAlt st now input
      ∧ (chat c st now input).2.conversation_memory = st.conversation_memory
      ∧ (chat c st now input).2.savedFile
          = some (saveData st.conversation_memory st.json_context now) := by
  have hne : pyStrip input ≠ "" := by
    intro h0
    rw [h0] at h
    exact absurd h (by decide)
  have hc : chat c st now input = (farewellReply, auto_save st now) := by
    rw [chat, if_neg hne, if_pos h]
  have hc2 : chat cAlt st now input = (farewellReply, auto_save st now) := by
    rw [chat, if_neg hne, if_pos h]
  refine ⟨hc, by rw [hc, hc2], by rw [hc]; rfl, by rw [hc]; rfl⟩

/-- C7 witness: the input "bye" with a throwing collaborator set. -/
theorem c7_witness :
    chat cNoop stSample 0 "bye" = (farewellReply, auto_save stSample 0) :=
  (c7_exit_shortcircuits cNoop cNoop stSample 0 "bye" (by decide)).1

/-! ## Session snapshot round trip (C9) -/

/-- Modelled from the spec: the `restore(path)` half of the
ConversationMemory contract (spec section 4.4) has no implementation in
the source tree (no code ever reads the session file back); this decoder
reads one exchange dictionary back from its JSON form. -/
def decodeExchange : Json → Option Exchange
  | .obj fs =>
      match lookupField fs "user", lookupField fs "agent",
          lookupField fs "timestamp", lookupField fs "sources" with
      | some (.str u), some (.str a), some (.num t), some (.str s) => some ⟨u, a, t, s⟩
      | _, _, _, _ => none
  | _ => none

/-- Modelled from the spec: decode a serialized exchange list. -/
def decodeMemory : List Json → Option (List Exchange)
  | [] => some []
  | j :: js =>
      match decodeExchange j, decodeMemory js with
      | some e, some es => some (e :: es)
      | _, _ => none

/-- Modelled from the spec: `restore(path)` parses the snapshot file
written by `_auto_save` back into the ordered exchange list and the
context map. -/
def restoreSession (j : Json) : Option (List Exchange × List (String × Json)) :=
  match j with
  | .obj fs =>
      match lookupField fs "conversation_memory", lookupField fs "json_context" with
      | some (.arr ms), some (.obj ctx) =>
          match decodeMemory ms with
          | some mem => some (mem, ctx)
          | none => none
      | _, _ => none
  | _ => none

theorem decodeExchange_encode (e : Exchange) :
    decodeExchange (encodeExchange e) = some e := rfl

theorem decodeMemory_encode (mem : List Exchange) :
    decodeMemory (mem.map encodeExchange) = some mem := by
  induction mem with
  | nil => rfl
  | cons e es ih =>
      simp only [List.map_cons, decodeMemory, decodeExchange_encode, ih]

/-- C9: restoring the snapshot written by `_auto_save` reproduces the
same ordered exchange list and the same context map, for every session
state and timestamp. -/
theorem c9_snapshot_round_trip (mem : List Exchange) (ctx : List (String × Json)) (t : ℚ) :
    restoreSession (saveData mem ctx t) = some (mem, ctx) := by
  show (match decodeMemory (mem.map encodeExchange) with
        | some m => some (m, ctx)
        | none => none) = some (mem, ctx)
  rw [decodeMemory_encode]

end RagBot
